import Mathlib

/-!
Call-trace model of `main.cpp` and `include/shader.h` of openGL_learning.

The program is a straight-line sequence of GLFW / OpenGL calls followed by a
render loop and a shutdown sequence.  It is embedded as the list of calls it
issues (its *trace*).  Everything the program cannot decide by itself is an
explicit input:

* `Driver`     : the handles the GL driver hands out and the compile / link
                 verdicts and info logs it reports;
* `MainEnv`    : whether the window and the GL loader come up;
* `FrameInput` : per frame, the state of the escape key seen by `processInput`
                 and whether `glfwPollEvents` delivers a close request;
* `FileSystem` : the contents of the shader files read by `Shader::Shader`.
-/

namespace OpenGLLearning

/-! ## Values appearing as call arguments -/

/-- Symbolic GL enumerants used by the program (declared in `glad.h`). -/
inductive GLenum
  | VERTEX_SHADER | FRAGMENT_SHADER
  | COMPILE_STATUS | LINK_STATUS
  | ARRAY_BUFFER | ELEMENT_ARRAY_BUFFER
  | STATIC_DRAW
  | FLOAT | UNSIGNED_INT
  | TRIANGLES
  | COLOR_BUFFER_BIT
  deriving DecidableEq, Repr

/-- Symbolic GLFW constants used by the program (declared in `glfw3.h`). -/
inductive GLFWconst
  | CONTEXT_VERSION_MAJOR | CONTEXT_VERSION_MINOR
  | OPENGL_PROFILE | OPENGL_CORE_PROFILE
  | KEY_ESCAPE
  deriving DecidableEq, Repr

/-- Second argument of `glfwWindowHint`: a number or a GLFW constant. -/
inductive HintValue
  | num (n : Nat)
  | const (c : GLFWconst)
  deriving DecidableEq, Repr

/-- Decimal `float` literal of the source text: `mantissa / 10 ^ decimals`,
so `0.5f` is `⟨5, 1⟩` and `-0.5f` is `⟨-5, 1⟩`. -/
structure FloatLit where
  mantissa : Int
  decimals : Nat
  deriving DecidableEq, Repr

/-- Client memory handed to `glBufferData`. -/
inductive Payload
  | floats (xs : List FloatLit)
  | uints (xs : List Nat)
  deriving DecidableEq, Repr

/-- The value of `sizeof(float)` on the target. -/
def sizeofFloat : Nat := 4

/-- The value of `sizeof(unsigned int)` on the target. -/
def sizeofUInt : Nat := 4

/-! ## Calls -/

/-- One observable call of the program.  The single `GLFWwindow*` is left
implicit; `print` is a complete `std::cout << ... << std::endl` statement. -/
inductive Call
  | glfwInit
  | glfwWindowHint (hint : GLFWconst) (value : HintValue)
  | glfwCreateWindow (width height : Nat) (title : String)
  | glfwTerminate
  | glfwMakeContextCurrent
  | gladLoadGLLoader
  | glfwSetFramebufferSizeCallback
  | print (text : String)
  | glCreateShader (kind : GLenum)
  | glShaderSource (shader count : Nat) (source : String)
  | glCompileShader (shader : Nat)
  | glCreateProgram
  | glAttachShader (program shader : Nat)
  | glLinkProgram (program : Nat)
  | glGetShaderiv (shader : Nat) (pname : GLenum)
  | glGetShaderInfoLog (shader bufSize : Nat)
  | glGetProgramiv (program : Nat) (pname : GLenum)
  | glGetProgramInfoLog (program bufSize : Nat)
  | glUseProgram (program : Nat)
  | glDeleteShader (shader : Nat)
  | glGenVertexArrays (n : Nat)
  | glGenBuffers (n : Nat)
  | glBindVertexArray (array : Nat)
  | glBindBuffer (target : GLenum) (buffer : Nat)
  | glBufferData (target : GLenum) (size : Nat) (data : Payload) (usage : GLenum)
  | glVertexAttribPointer (index size : Nat) (type : GLenum) (normalized : Bool)
      (stride offset : Nat)
  | glEnableVertexAttribArray (index : Nat)
  | glfwWindowShouldClose
  | glfwGetKey (key : GLFWconst)
  | glfwSetWindowShouldClose (value : Bool)
  | glClearColor (r g b a : FloatLit)
  | glClear (mask : GLenum)
  | glDrawElements (mode : GLenum) (count : Nat) (type : GLenum) (offset : Nat)
  | glfwSwapBuffers
  | glfwPollEvents
  | glDeleteVertexArrays (n array : Nat)
  | glDeleteBuffers (n buffer : Nat)
  | glDeleteProgram (program : Nat)
  deriving DecidableEq, Repr

/-- A trace is the list of calls issued so far, oldest first. -/
abbrev Trace := List Call

/-! ## Environment -/

/-- What the GL driver returns to the program. -/
structure Driver where
  /-- result of `glCreateShader(GL_VERTEX_SHADER)` -/
  vertexShader : Nat
  /-- result of `glCreateShader(GL_FRAGMENT_SHADER)` -/
  fragmentShader : Nat
  /-- result of `glCreateProgram()` -/
  shaderProgram : Nat
  /-- name written by `glGenVertexArrays(1, &VAO)` -/
  VAO : Nat
  /-- name written by `glGenBuffers(1, &VBO)` -/
  VBO : Nat
  /-- name written by `glGenBuffers(1, &EBO)` -/
  EBO : Nat
  /-- value of `GL_COMPILE_STATUS` after compiling a source as a stage kind -/
  compileStatus : GLenum → String → Bool
  /-- value of `GL_LINK_STATUS` of the program after `glLinkProgram` -/
  linkStatus : Bool
  /-- text written by `glGetShaderInfoLog` -/
  shaderInfoLog : Nat → String
  /-- text written by `glGetProgramInfoLog` -/
  programInfoLog : Nat → String

/-- Outcome of window creation and of loading the GL entry points. -/
structure MainEnv where
  windowOk : Bool
  gladOk : Bool
  driver : Driver

/-- What the outside world does during one iteration of the render loop. -/
structure FrameInput where
  /-- `glfwGetKey(window, GLFW_KEY_ESCAPE) == GLFW_PRESS` in `processInput` -/
  escape : Bool
  /-- `glfwPollEvents` delivers a window-close request -/
  closeEvent : Bool
  deriving DecidableEq, Repr

/-! ## `main.cpp` -/

/-- Global `vertexShaderSource` (lines 7-14), up to its terminating NUL. -/
def vertexShaderSource : String :=
  "#version 330 core\n" ++
  "layout (location = 0) in vec3 aPos;\n" ++
  "layout (location = 1) in vec3 aColor;\n" ++
  "out vec3 color;\n" ++
  "void main() \x7b\n" ++
  "gl_Position = vec4(aPos.x, aPos.y, aPos.z, 1.0);\n" ++
  "color = aColor;\n" ++
  "\x7d"

/-- Global `fragmentShaderSource` (lines 15-20), up to its terminating NUL. -/
def fragmentShaderSource : String :=
  "#version 330 core\n" ++
  "out vec4 FragColor;\n" ++
  "in vec3 color;\n" ++
  "void main() \x7b\n" ++
  "FragColor = vec4(color, 1.0);\n" ++
  "\x7d"

/-- Local array `vertices` of `main` (lines 105-110). -/
def vertices : List FloatLit :=
  [ ⟨5, 1⟩, ⟨5, 1⟩, ⟨0, 1⟩,   ⟨10, 1⟩, ⟨0, 1⟩, ⟨0, 1⟩,
    ⟨5, 1⟩, ⟨-5, 1⟩, ⟨0, 1⟩,  ⟨0, 1⟩, ⟨10, 1⟩, ⟨0, 1⟩,
    ⟨-5, 1⟩, ⟨-5, 1⟩, ⟨0, 1⟩, ⟨10, 1⟩, ⟨10, 1⟩, ⟨10, 1⟩,
    ⟨-5, 1⟩, ⟨5, 1⟩, ⟨0, 1⟩,  ⟨0, 1⟩, ⟨0, 1⟩, ⟨10, 1⟩ ]

/-- Local array `indices` of `main` (lines 111-114). -/
def indices : List Nat := [0, 1, 3, 1, 2, 3]

/-- Lines 38-50 up to the window test: GLFW start-up. -/
def startup : Trace :=
  [ .glfwInit,
    .glfwWindowHint .CONTEXT_VERSION_MAJOR (.num 3),
    .glfwWindowHint .CONTEXT_VERSION_MINOR (.num 3),
    .glfwWindowHint .OPENGL_PROFILE (.const .OPENGL_CORE_PROFILE),
    .glfwCreateWindow 800 600 "LearnOpenGL" ]

/-- Lines 84-88: query the vertex compile status and report a failure. -/
def checkVertex (d : Driver) (shader : Nat) (source : String) : Trace :=
  .glGetShaderiv shader .COMPILE_STATUS ::
    (if d.compileStatus .VERTEX_SHADER source then []
     else [ .glGetShaderInfoLog shader 512,
            .print ("Vertex shader compilation failed\n" ++ d.shaderInfoLog shader ++ "\n") ])

/-- Lines 89-93: query the fragment compile status and report a failure. -/
def checkFragment (d : Driver) (shader : Nat) (source : String) : Trace :=
  .glGetShaderiv shader .COMPILE_STATUS ::
    (if d.compileStatus .FRAGMENT_SHADER source then []
     else [ .glGetShaderInfoLog shader 512,
            .print ("Fragment shader compilation failed\n" ++ d.shaderInfoLog shader ++ "\n") ])

/-- Lines 94-98: query the link status and report a failure. -/
def checkLink (d : Driver) : Trace :=
  .glGetProgramiv d.shaderProgram .LINK_STATUS ::
    (if d.linkStatus then []
     else [ .glGetProgramInfoLog d.shaderProgram 512,
            .print ("Shader program linking failed\n" ++ d.programInfoLog d.shaderProgram ++ "\n") ])

/-- Lines 63-102: shader build, status checks, activation, stage deletion. -/
def shaderBuild (d : Driver) : Trace :=
  [ .glCreateShader .VERTEX_SHADER,
    .glShaderSource d.vertexShader 1 vertexShaderSource,
    .glCompileShader d.vertexShader,
    .glCreateShader .FRAGMENT_SHADER,
    .glShaderSource d.fragmentShader 1 fragmentShaderSource,
    .glCompileShader d.fragmentShader,
    .glCreateProgram,
    .glAttachShader d.shaderProgram d.vertexShader,
    .glAttachShader d.shaderProgram d.fragmentShader,
    .glLinkProgram d.shaderProgram ]
  ++ checkVertex d d.vertexShader vertexShaderSource
  ++ checkFragment d d.fragmentShader fragmentShaderSource
  ++ checkLink d
  ++ [ .glUseProgram d.shaderProgram,
       .glDeleteShader d.vertexShader,
       .glDeleteShader d.fragmentShader ]

/-- Lines 120-147: buffer creation, upload and attribute layout. -/
def geometrySetup (d : Driver) : Trace :=
  [ .glGenVertexArrays 1,
    .glGenBuffers 1,
    .glGenBuffers 1,
    .glBindVertexArray d.VAO,
    .glBindBuffer .ARRAY_BUFFER d.VBO,
    .glBufferData .ARRAY_BUFFER (vertices.length * sizeofFloat) (.floats vertices) .STATIC_DRAW,
    .glBindBuffer .ELEMENT_ARRAY_BUFFER d.EBO,
    .glBufferData .ELEMENT_ARRAY_BUFFER (indices.length * sizeofUInt) (.uints indices) .STATIC_DRAW,
    .glVertexAttribPointer 0 3 .FLOAT false (6 * sizeofFloat) 0,
    .glEnableVertexAttribArray 0,
    .glVertexAttribPointer 1 3 .FLOAT false (6 * sizeofFloat) (3 * sizeofFloat),
    .glEnableVertexAttribArray 1 ]

/-- Lines 23-27: `processInput`. -/
def processInput (i : FrameInput) : Trace :=
  .glfwGetKey .KEY_ESCAPE :: (if i.escape then [ .glfwSetWindowShouldClose true ] else [])

/-- Lines 154-166: the body of one iteration of the render loop. -/
def frame (d : Driver) (i : FrameInput) : Trace :=
  processInput i ++
  [ .glClearColor ⟨2, 1⟩ ⟨3, 1⟩ ⟨3, 1⟩ ⟨10, 1⟩,
    .glClear .COLOR_BUFFER_BIT,
    .glUseProgram d.shaderProgram,
    .glBindVertexArray d.VAO,
    .glDrawElements .TRIANGLES 3 .UNSIGNED_INT 0,
    .glBindVertexArray 0,
    .glfwSwapBuffers,
    .glfwPollEvents ]

/-- The window's close flag after one iteration that started with it clear:
`processInput` sets it on escape, `glfwPollEvents` on a close request. -/
def flagAfter (i : FrameInput) : Bool := i.escape || i.closeEvent

/-- Lines 153-167: `while(!glfwWindowShouldClose(window)) { ... }`, run against
the frame inputs observed so far.  The first component is the trace, the second
says whether the loop has been left; with the flag clear and no further input
the program is still inside the loop. -/
def renderLoop (d : Driver) : Bool → List FrameInput → Trace × Bool
  | true, _ => ([ .glfwWindowShouldClose ], true)
  | false, [] => ([], false)
  | false, i :: rest =>
      let r := renderLoop d (flagAfter i) rest
      (.glfwWindowShouldClose :: (frame d i ++ r.1), r.2)

/-- Lines 169-174: resource release and context teardown. -/
def shutdown (d : Driver) : Trace :=
  [ .glDeleteVertexArrays 1 d.VAO,
    .glDeleteBuffers 1 d.VBO,
    .glDeleteBuffers 1 d.EBO,
    .glDeleteProgram d.shaderProgram,
    .glfwTerminate ]

/-- A run of `main`: the calls issued and the return value, `none` while the
program is still in its render loop. -/
structure Run where
  trace : Trace
  exit : Option Int
  deriving DecidableEq, Repr

/-- Function `main` (lines 35-176) against an environment and the frame inputs
observed so far. -/
def main (env : MainEnv) (frames : List FrameInput) : Run :=
  if !env.windowOk then
    ⟨startup ++ [ .print "failed to create GLFW window\n", .glfwTerminate ], some (-1)⟩
  else if !env.gladOk then
    ⟨startup ++ [ .glfwMakeContextCurrent, .gladLoadGLLoader,
                  .print "Failed to initialize GLAD\n" ], some (-1)⟩
  else
    let r := renderLoop env.driver false frames
    let pre := startup ++ [ .glfwMakeContextCurrent, .gladLoadGLLoader,
                            .glfwSetFramebufferSizeCallback ]
               ++ shaderBuild env.driver ++ geometrySetup env.driver ++ r.1
    if r.2 then ⟨pre ++ shutdown env.driver, some 0⟩ else ⟨pre, none⟩

/-! ## `include/shader.h` -/

/-- Contents of the files the program may open; `none` when opening fails. -/
abbrev FileSystem := String → Option String

/-- `std::string::c_str()` as read by `glShaderSource` with a `NULL` length
array: the characters before the first NUL. -/
def cstr (s : String) : String := String.mk (s.data.takeWhile (fun c => c != Char.ofNat 0))

/-- Lines 17-43 of `Shader::Shader`: both files are opened inside one `try`
block and the two strings are assigned at its end, so a failure on either
file leaves both strings empty; the handler only prints. -/
def loadSources (fs : FileSystem) (vertexPath fragmentPath : String) : Trace × String × String :=
  match fs vertexPath with
  | none => ([ .print "Shader file not read successfully\n" ], "", "")
  | some v =>
    match fs fragmentPath with
    | none => ([ .print "Shader file not read successfully\n" ], "", "")
    | some f => ([], v, f)

/-- Class `Shader` (lines 11-69): its only data member. -/
structure Shader where
  ID : Nat
  deriving DecidableEq, Repr

/-- Constructor `Shader::Shader` (lines 15-62).  `self` is the storage of the
object before the constructor body runs; the result is the trace of the body
and the object it leaves. -/
def Shader.construct (d : Driver) (fs : FileSystem) (vertexPath fragmentPath : String)
    (self : Shader) : Trace × Shader :=
  let l := loadSources fs vertexPath fragmentPath
  let vertexShaderSource := cstr l.2.1
  let fragmentShaderSource := cstr l.2.2
  (l.1 ++
   [ .glCreateShader .VERTEX_SHADER,
     .glShaderSource d.vertexShader 1 vertexShaderSource,
     .glCompileShader d.vertexShader ]
   ++ checkVertex d d.vertexShader vertexShaderSource
   ++ [ .glCreateShader .FRAGMENT_SHADER,
        .glShaderSource d.fragmentShader 1 fragmentShaderSource ],
   self)

/-! ## Views of a trace -/

/-- The `count` argument of every `glDrawElements` call, in order. -/
def drawCounts (t : Trace) : List Nat :=
  t.filterMap fun
    | .glDrawElements _ n _ _ => some n
    | _ => none

/-- The index arrays uploaded to `GL_ELEMENT_ARRAY_BUFFER`, in order. -/
def indexUploads (t : Trace) : List (List Nat) :=
  t.filterMap fun
    | .glBufferData .ELEMENT_ARRAY_BUFFER _ (.uints xs) _ => some xs
    | _ => none

/-- The byte sizes uploaded to `GL_ARRAY_BUFFER`, in order. -/
def vertexUploadSizes (t : Trace) : List Nat :=
  t.filterMap fun
    | .glBufferData .ARRAY_BUFFER n _ _ => some n
    | _ => none

/-- One `glVertexAttribPointer` call read as an attribute descriptor. -/
structure AttribDesc where
  location : Nat
  components : Nat
  type : GLenum
  normalized : Bool
  stride : Nat
  offset : Nat
  deriving DecidableEq, Repr

/-- The attribute descriptors configured by a trace, in order. -/
def layoutOf (t : Trace) : List AttribDesc :=
  t.filterMap fun
    | .glVertexAttribPointer i n ty nm st off => some ⟨i, n, ty, nm, st, off⟩
    | _ => none

/-- Size in bytes of one component of the given type. -/
def componentSize : GLenum → Nat
  | .FLOAT => sizeofFloat
  | .UNSIGNED_INT => sizeofUInt
  | _ => 0

/-- The stride/offset invariant of one descriptor. -/
def AttribDesc.fits (a : AttribDesc) : Prop :=
  a.offset + a.components * componentSize a.type ≤ a.stride

instance (a : AttribDesc) : Decidable a.fits := by
  unfold AttribDesc.fits; infer_instance

/-- Kinds of GPU object names. -/
inductive ResKind
  | shader | program | vertexArray | buffer
  deriving DecidableEq, Repr

/-- A GPU object: the kind of name and the name. -/
abbrev Res := ResKind × Nat

/-- The object a call deletes, if it is a delete call. -/
def Call.deleted : Call → Option Res
  | .glDeleteShader s => some (.shader, s)
  | .glDeleteProgram p => some (.program, p)
  | .glDeleteVertexArrays _ a => some (.vertexArray, a)
  | .glDeleteBuffers _ b => some (.buffer, b)
  | _ => none

/-- The objects a call names in its arguments. -/
def Call.refs : Call → List Res
  | .glShaderSource s _ _ => [(.shader, s)]
  | .glCompileShader s => [(.shader, s)]
  | .glAttachShader p s => [(.program, p), (.shader, s)]
  | .glLinkProgram p => [(.program, p)]
  | .glGetShaderiv s _ => [(.shader, s)]
  | .glGetShaderInfoLog s _ => [(.shader, s)]
  | .glGetProgramiv p _ => [(.program, p)]
  | .glGetProgramInfoLog p _ => [(.program, p)]
  | .glUseProgram p => [(.program, p)]
  | .glDeleteShader s => [(.shader, s)]
  | .glBindVertexArray a => [(.vertexArray, a)]
  | .glBindBuffer _ b => [(.buffer, b)]
  | .glDeleteVertexArrays _ a => [(.vertexArray, a)]
  | .glDeleteBuffers _ b => [(.buffer, b)]
  | .glDeleteProgram p => [(.program, p)]
  | _ => []

/-- Does the call delete the object? -/
def deletes (r : Res) (c : Call) : Bool := c.deleted == some r

/-- Does the call name the object? -/
def refers (r : Res) (c : Call) : Bool := c.refs.contains r

/-- Is the call an indexed draw? -/
def isDraw : Call → Bool
  | .glDrawElements _ _ _ _ => true
  | _ => false

/-- Is the call `glfwTerminate`? -/
def isTerminate : Call → Bool
  | .glfwTerminate => true
  | _ => false

/-- Some call satisfying `later` is issued after some call satisfying `first`. -/
def occursAfter (first later : Call → Bool) : Trace → Bool
  | [] => false
  | c :: t => (first c && t.any later) || occursAfter first later t

/-- Number of loop iterations executed on the given frame inputs: up to and
including the first one that leaves the close flag set. -/
def framesRun : List FrameInput → Nat
  | [] => 0
  | i :: rest => if flagAfter i then 1 else 1 + framesRun rest

/-- A driver handing out the names 1, 2, 3 for shaders and program and
1, 1, 2 for vertex array and buffers, accepting every source. -/
def sampleDriver : Driver :=
  { vertexShader := 1, fragmentShader := 2, shaderProgram := 3,
    VAO := 1, VBO := 1, EBO := 2,
    compileStatus := fun _ _ => true, linkStatus := true,
    shaderInfoLog := fun _ => "", programInfoLog := fun _ => "" }

/-- The sample driver with both start-up steps succeeding. -/
def sampleEnv : MainEnv := ⟨true, true, sampleDriver⟩

/-- Success path of `main` before the render loop (lines 38-147). -/
def setup (d : Driver) : Trace :=
  startup ++ [ .glfwMakeContextCurrent, .gladLoadGLLoader, .glfwSetFramebufferSizeCallback ]
    ++ shaderBuild d ++ geometrySetup d

/-- The argument of every `glCompileShader` call, in order. -/
def compileCalls (t : Trace) : List Nat :=
  t.filterMap fun
    | .glCompileShader s => some s
    | _ => none

/-- The shader argument of every compile-status query, in order. -/
def compileQueries (t : Trace) : List Nat :=
  t.filterMap fun
    | .glGetShaderiv s .COMPILE_STATUS => some s
    | _ => none

/-- The text of every `print`, in order. -/
def printed (t : Trace) : List String :=
  t.filterMap fun
    | .print s => some s
    | _ => none

/-- Is the call `glCreateShader(GL_FRAGMENT_SHADER)`? -/
def isCreateFragment : Call → Bool
  | .glCreateShader .FRAGMENT_SHADER => true
  | _ => false

/-- Is the call a compile or a compile-status query? -/
def isCompileOrQuery : Call → Bool
  | .glCompileShader _ => true
  | .glGetShaderiv _ _ => true
  | _ => false

/-- Is the call one of `glCreateProgram`, `glAttachShader`, `glLinkProgram`? -/
def isProgramCall : Call → Bool
  | .glCreateProgram => true
  | .glAttachShader _ _ => true
  | .glLinkProgram _ => true
  | _ => false

/-- The sample driver, except that it rejects every fragment-stage source. -/
def fragmentRejectingDriver : Driver :=
  { sampleDriver with compileStatus := fun k _ => k != .FRAGMENT_SHADER }

/-- A file system holding the two shader sources of `main.cpp` under the
names `shader.vs` and `shader.fs`. -/
def sampleFiles : FileSystem := fun path =>
  if path = "shader.vs" then some vertexShaderSource
  else if path = "shader.fs" then some fragmentShaderSource
  else none

/-- Is the call `glLinkProgram`? -/
def isLink : Call → Bool
  | .glLinkProgram _ => true
  | _ => false

/-- Is the call the loop test `glfwWindowShouldClose`? -/
def isLoopTest : Call → Bool
  | .glfwWindowShouldClose => true
  | _ => false

/-- Number of calls of the trace that delete the object. -/
def deleteCount (r : Res) (t : Trace) : Nat := t.countP (deletes r)


/-! ## General facts about traces -/

theorem occursAfter_append (f l : Call → Bool) (a b : Trace) :
    occursAfter f l (a ++ b)
      = (occursAfter f l a || (a.any f && b.any l) || occursAfter f l b) := by
  induction a with
  | nil => simp [occursAfter]
  | cons c t ih =>
    show occursAfter f l (c :: (t ++ b)) = _
    rw [occursAfter, ih, List.any_append]
    simp only [occursAfter, List.any_cons]
    generalize f c = x1
    generalize t.any l = x2
    generalize b.any l = x3
    generalize t.any f = x4
    generalize occursAfter f l t = x5
    generalize occursAfter f l b = x6
    cases x1 <;> cases x2 <;> cases x3 <;> cases x4 <;> cases x5 <;> cases x6 <;> rfl

theorem occursAfter_eq_false_of_first (f l : Call → Bool) (t : Trace)
    (h : t.any f = false) : occursAfter f l t = false := by
  induction t with
  | nil => rfl
  | cons c t ih =>
    simp only [List.any_cons, Bool.or_eq_false_iff] at h
    simp [occursAfter, h.1, ih h.2]

theorem occursAfter_eq_false_of_later (f l : Call → Bool) (t : Trace)
    (h : t.any l = false) : occursAfter f l t = false := by
  induction t with
  | nil => rfl
  | cons c t ih =>
    simp only [List.any_cons, Bool.or_eq_false_iff] at h
    simp [occursAfter, h.2, ih h.2]

theorem renderLoop_true (d : Driver) (frames : List FrameInput) :
    renderLoop d true frames = ([ .glfwWindowShouldClose ], true) := by
  cases frames <;> rfl

theorem renderLoop_cons (d : Driver) (i : FrameInput) (rest : List FrameInput) :
    renderLoop d false (i :: rest)
      = (.glfwWindowShouldClose :: (frame d i ++ (renderLoop d (flagAfter i) rest).1),
         (renderLoop d (flagAfter i) rest).2) := rfl

theorem renderLoop_any (d : Driver) (P : Call → Bool) (hP : P .glfwWindowShouldClose = false)
    (hf : ∀ i, (frame d i).any P = false) (b : Bool) (frames : List FrameInput) :
    (renderLoop d b frames).1.any P = false := by
  induction frames generalizing b with
  | nil => cases b <;> simp [renderLoop, hP]
  | cons i rest ih =>
    cases b
    · rw [renderLoop_cons]; simp [hP, hf i, ih]
    · simp [renderLoop_true, hP]

theorem renderLoop_filterMap {α : Type} (d : Driver) (g : Call → Option α)
    (hg : g .glfwWindowShouldClose = none)
    (hf : ∀ i, (frame d i).filterMap g = []) (b : Bool) (frames : List FrameInput) :
    (renderLoop d b frames).1.filterMap g = [] := by
  induction frames generalizing b with
  | nil => cases b <;> simp [renderLoop, hg]
  | cons i rest ih =>
    cases b
    · rw [renderLoop_cons]; simp [hg, hf i, ih]
    · simp [renderLoop_true, hg]

theorem frame_filterMap_eq_nil {α : Type} (g : Call → Option α) (d : Driver)
    (h1 : g (.glfwGetKey .KEY_ESCAPE) = none) (h2 : g (.glfwSetWindowShouldClose true) = none)
    (h3 : g (.glClearColor ⟨2, 1⟩ ⟨3, 1⟩ ⟨3, 1⟩ ⟨10, 1⟩) = none)
    (h4 : g (.glClear .COLOR_BUFFER_BIT) = none) (h5 : g (.glUseProgram d.shaderProgram) = none)
    (h6 : g (.glBindVertexArray d.VAO) = none)
    (h7 : g (.glDrawElements .TRIANGLES 3 .UNSIGNED_INT 0) = none)
    (h8 : g (.glBindVertexArray 0) = none) (h9 : g .glfwSwapBuffers = none)
    (h10 : g .glfwPollEvents = none) (i : FrameInput) :
    (frame d i).filterMap g = [] := by
  cases hi : i.escape <;> simp [frame, processInput, hi, h1, h2, h3, h4, h5, h6, h7, h8, h9, h10]

theorem frame_any_eq_false (P : Call → Bool) (d : Driver)
    (h1 : P (.glfwGetKey .KEY_ESCAPE) = false) (h2 : P (.glfwSetWindowShouldClose true) = false)
    (h3 : P (.glClearColor ⟨2, 1⟩ ⟨3, 1⟩ ⟨3, 1⟩ ⟨10, 1⟩) = false)
    (h4 : P (.glClear .COLOR_BUFFER_BIT) = false) (h5 : P (.glUseProgram d.shaderProgram) = false)
    (h6 : P (.glBindVertexArray d.VAO) = false)
    (h7 : P (.glDrawElements .TRIANGLES 3 .UNSIGNED_INT 0) = false)
    (h8 : P (.glBindVertexArray 0) = false) (h9 : P .glfwSwapBuffers = false)
    (h10 : P .glfwPollEvents = false) (i : FrameInput) :
    (frame d i).any P = false := by
  cases hi : i.escape <;> simp [frame, processInput, hi, h1, h2, h3, h4, h5, h6, h7, h8, h9, h10]

theorem renderLoop_finished (d : Driver) (frames : List FrameInput) :
    (renderLoop d false frames).2 = frames.any flagAfter := by
  induction frames with
  | nil => rfl
  | cons i rest ih =>
    rw [renderLoop_cons]
    cases h : flagAfter i <;> simp [h, renderLoop_true, ih]

theorem renderLoop_drawCounts (d : Driver) (frames : List FrameInput) :
    drawCounts (renderLoop d false frames).1 = List.replicate (framesRun frames) 3 := by
  induction frames with
  | nil => rfl
  | cons i rest ih =>
    rw [renderLoop_cons]
    cases h : flagAfter i
    · have : drawCounts (frame d i ++ (renderLoop d false rest).1)
          = 3 :: List.replicate (framesRun rest) 3 := by
        rw [← ih]; cases hi : i.escape <;> simp [drawCounts, frame, processInput, hi]
      have hn : framesRun (i :: rest) = framesRun rest + 1 := by
        simp [framesRun, h, Nat.add_comm]
      rw [hn, List.replicate_succ]
      simpa [drawCounts] using this
    · cases hi : i.escape <;>
        simp [drawCounts, framesRun, h, renderLoop_true, frame, processInput, hi]

theorem main_trace (env : MainEnv) (frames : List FrameInput)
    (hw : env.windowOk = true) (hg : env.gladOk = true) :
    (main env frames).trace
      = setup env.driver ++ (renderLoop env.driver false frames).1
          ++ (if (renderLoop env.driver false frames).2 then shutdown env.driver else []) := by
  simp only [main, hw, hg, setup, Bool.not_true, Bool.false_eq_true, if_false]
  split <;> simp


/-! ## Index count of the draw call and uploaded geometry -/

theorem main_filterMap {α : Type} (g : Call → Option α) (env : MainEnv)
    (frames : List FrameInput) (hw : env.windowOk = true) (hg : env.gladOk = true) :
    (main env frames).trace.filterMap g
      = (setup env.driver).filterMap g
        ++ (renderLoop env.driver false frames).1.filterMap g
        ++ (if frames.any flagAfter then (shutdown env.driver).filterMap g else []) := by
  rw [main_trace env frames hw hg, renderLoop_finished]
  split <;> simp [List.filterMap_append]

theorem main_indexUploads (env : MainEnv) (frames : List FrameInput)
    (hw : env.windowOk = true) (hg : env.gladOk = true) :
    indexUploads (main env frames).trace = [[0, 1, 3, 1, 2, 3]] := by
  unfold indexUploads
  rw [main_filterMap _ env frames hw hg, renderLoop_filterMap]
  · cases hv : env.driver.compileStatus .VERTEX_SHADER vertexShaderSource <;>
    cases hf : env.driver.compileStatus .FRAGMENT_SHADER fragmentShaderSource <;>
    cases hk : env.driver.linkStatus <;>
    simp [setup, startup, shaderBuild, checkVertex, checkFragment, checkLink, geometrySetup,
      shutdown, hv, hf, hk, indices]
  · rfl
  · intro i; apply frame_filterMap_eq_nil <;> rfl

/-- C1 (evaluation of the code): on every run of `main` each of the
`glDrawElements` calls, one per loop iteration, passes index count 3, while the
index array uploaded to the index store is `[0,1,3,1,2,3]`, of length 6. -/
theorem main_draws_three_of_six (env : MainEnv) (frames : List FrameInput) :
    drawCounts (main env frames).trace
        = List.replicate (if env.windowOk && env.gladOk then framesRun frames else 0) 3
      ∧ indexUploads (main env frames).trace
        = (if env.windowOk && env.gladOk then [[0, 1, 3, 1, 2, 3]] else []) := by
  cases hw : env.windowOk
  · simp [main, hw, drawCounts, indexUploads, startup]
  cases hg : env.gladOk
  · simp [main, hw, hg, drawCounts, indexUploads, startup]
  constructor
  · have hl := renderLoop_drawCounts env.driver frames
    unfold drawCounts at hl ⊢
    rw [main_filterMap _ env frames hw hg, hl]
    cases hv : env.driver.compileStatus .VERTEX_SHADER vertexShaderSource <;>
    cases hf : env.driver.compileStatus .FRAGMENT_SHADER fragmentShaderSource <;>
    cases hk : env.driver.linkStatus <;>
    simp [setup, startup, shaderBuild, checkVertex, checkFragment, checkLink, geometrySetup,
      shutdown, hv, hf, hk]
  · simpa using main_indexUploads env frames hw hg

theorem main_layoutOf (env : MainEnv) (frames : List FrameInput)
    (hw : env.windowOk = true) (hg : env.gladOk = true) :
    layoutOf (main env frames).trace
      = [⟨0, 3, .FLOAT, false, 24, 0⟩, ⟨1, 3, .FLOAT, false, 24, 12⟩] := by
  unfold layoutOf
  rw [main_filterMap _ env frames hw hg, renderLoop_filterMap]
  · cases hv : env.driver.compileStatus .VERTEX_SHADER vertexShaderSource <;>
    cases hf : env.driver.compileStatus .FRAGMENT_SHADER fragmentShaderSource <;>
    cases hk : env.driver.linkStatus <;>
    simp [setup, startup, shaderBuild, checkVertex, checkFragment, checkLink, geometrySetup,
      shutdown, hv, hf, hk, sizeofFloat]
  · rfl
  · intro i; apply frame_filterMap_eq_nil <;> rfl

theorem main_vertexUploadSizes (env : MainEnv) (frames : List FrameInput)
    (hw : env.windowOk = true) (hg : env.gladOk = true) :
    vertexUploadSizes (main env frames).trace = [96] := by
  unfold vertexUploadSizes
  rw [main_filterMap _ env frames hw hg, renderLoop_filterMap]
  · cases hv : env.driver.compileStatus .VERTEX_SHADER vertexShaderSource <;>
    cases hf : env.driver.compileStatus .FRAGMENT_SHADER fragmentShaderSource <;>
    cases hk : env.driver.linkStatus <;>
    simp [setup, startup, shaderBuild, checkVertex, checkFragment, checkLink, geometrySetup,
      shutdown, hv, hf, hk, sizeofFloat, vertices]
  · rfl
  · intro i; apply frame_filterMap_eq_nil <;> rfl

/-! ## Attribute layout and index range -/

/-- C6: on every run of `main` that reaches the buffer setup, the configured
attribute layout is location 0 (3 floats, offset 0, stride 24) and location 1
(3 floats, offset 12, stride 24); each descriptor satisfies
offset + components * component size <= stride, and the locations are distinct. -/
theorem main_layout_invariant (env : MainEnv) (frames : List FrameInput)
    (hw : env.windowOk = true) (hg : env.gladOk = true) :
    layoutOf (main env frames).trace
        = [⟨0, 3, .FLOAT, false, 24, 0⟩, ⟨1, 3, .FLOAT, false, 24, 12⟩]
      ∧ componentSize .FLOAT = 4
      ∧ (∀ a ∈ layoutOf (main env frames).trace, a.fits)
      ∧ ((layoutOf (main env frames).trace).map (fun a => a.location)).Nodup := by
  rw [main_layoutOf env frames hw hg]
  refine ⟨rfl, rfl, ?_, by decide⟩
  intro a ha
  simp only [List.mem_cons, List.mem_singleton, List.not_mem_nil, or_false] at ha
  rcases ha with rfl | rfl <;> decide

/-- C6 (witness) on the sample environment. -/
theorem main_layout_invariant_witness :
    layoutOf (main sampleEnv [⟨true, false⟩]).trace
        = [⟨0, 3, .FLOAT, false, 24, 0⟩, ⟨1, 3, .FLOAT, false, 24, 12⟩]
      ∧ componentSize .FLOAT = 4
      ∧ (∀ a ∈ layoutOf (main sampleEnv [⟨true, false⟩]).trace, a.fits)
      ∧ ((layoutOf (main sampleEnv [⟨true, false⟩]).trace).map (fun a => a.location)).Nodup :=
  main_layout_invariant sampleEnv [⟨true, false⟩] rfl rfl

/-- C7: on every run of `main` that reaches the buffer setup, the vertex store
receives 96 bytes, the stride of the layout is 24 bytes, the index store receives
`[0,1,3,1,2,3]`, and every uploaded index is below 96 / 24 = 4. -/
theorem main_indices_in_range (env : MainEnv) (frames : List FrameInput)
    (hw : env.windowOk = true) (hg : env.gladOk = true) :
    vertexUploadSizes (main env frames).trace = [96]
      ∧ (layoutOf (main env frames).trace).map (fun a => a.stride) = [24, 24]
      ∧ indexUploads (main env frames).trace = [[0, 1, 3, 1, 2, 3]]
      ∧ (96 / 24 = 4)
      ∧ ∀ xs ∈ indexUploads (main env frames).trace, ∀ i ∈ xs, i < 96 / 24 := by
  have hi := (main_indexUploads env frames hw hg)
  rw [main_vertexUploadSizes env frames hw hg, main_layoutOf env frames hw hg, hi]
  refine ⟨rfl, rfl, rfl, rfl, ?_⟩
  intro xs hxs i hix
  simp only [List.mem_singleton] at hxs
  subst hxs
  simp only [List.mem_cons, List.mem_singleton, List.not_mem_nil, or_false] at hix
  rcases hix with rfl | rfl | rfl | rfl | rfl | rfl <;> decide

/-- C7 (witness) on the sample environment. -/
theorem main_indices_in_range_witness :
    vertexUploadSizes (main sampleEnv [⟨true, false⟩]).trace = [96]
      ∧ (layoutOf (main sampleEnv [⟨true, false⟩]).trace).map (fun a => a.stride) = [24, 24]
      ∧ indexUploads (main sampleEnv [⟨true, false⟩]).trace = [[0, 1, 3, 1, 2, 3]]
      ∧ (96 / 24 = 4)
      ∧ ∀ xs ∈ indexUploads (main sampleEnv [⟨true, false⟩]).trace, ∀ i ∈ xs, i < 96 / 24 :=
  main_indices_in_range sampleEnv [⟨true, false⟩] rfl rfl

/-! ## Shader build in `main` -/

theorem loadSources_cases (fs : FileSystem) (vp fp : String) :
    (∃ v f, fs vp = some v ∧ fs fp = some f ∧ loadSources fs vp fp = ([], v, f))
      ∨ ((fs vp = none ∨ fs fp = none)
          ∧ loadSources fs vp fp = ([ .print "Shader file not read successfully\n" ], "", "")) := by
  unfold loadSources
  cases hv : fs vp with
  | none => exact Or.inr ⟨Or.inl rfl, rfl⟩
  | some v =>
    cases hf : fs fp with
    | none => exact Or.inr ⟨Or.inr rfl, rfl⟩
    | some f => exact Or.inl ⟨v, f, rfl, rfl, rfl⟩

/-- C2 (evaluation of the code): for every driver, file system, pair of paths
and initial object, the constructor issues exactly one `glCompileShader` call and
one compile-status query, both on the vertex handle, and neither a compile nor a
status query follows the creation of the fragment shader object. -/
theorem Shader_construct_fragment_unchecked (d : Driver) (fs : FileSystem)
    (vertexPath fragmentPath : String) (self : Shader) :
    compileCalls (Shader.construct d fs vertexPath fragmentPath self).1 = [d.vertexShader]
      ∧ compileQueries (Shader.construct d fs vertexPath fragmentPath self).1 = [d.vertexShader]
      ∧ occursAfter isCreateFragment isCompileOrQuery
          (Shader.construct d fs vertexPath fragmentPath self).1 = false
      ∧ fragmentRejectingDriver.compileStatus .FRAGMENT_SHADER fragmentShaderSource = false
      ∧ printed (Shader.construct fragmentRejectingDriver sampleFiles
          "shader.vs" "shader.fs" ⟨0⟩).1 = [] := by
  rcases loadSources_cases fs vertexPath fragmentPath with ⟨v, f, -, -, h⟩ | ⟨-, h⟩
  · cases hc : d.compileStatus .VERTEX_SHADER (cstr v) <;>
      refine ⟨?_, ?_, ?_, rfl, by decide⟩ <;>
      simp [Shader.construct, h, checkVertex, hc, compileCalls, compileQueries, occursAfter,
        isCreateFragment, isCompileOrQuery]
  · cases hc : d.compileStatus .VERTEX_SHADER (cstr "") <;>
      refine ⟨?_, ?_, ?_, rfl, by decide⟩ <;>
      simp [Shader.construct, h, checkVertex, hc, compileCalls, compileQueries, occursAfter,
        isCreateFragment, isCompileOrQuery]

/-- C5 (evaluation of the code): for every driver, file system, pair of paths
and initial object, the constructor issues no `glCreateProgram`,
`glAttachShader` or `glLinkProgram` call and leaves the object, hence its `ID`
field, as it found it. -/
theorem Shader_construct_leaves_ID (d : Driver) (fs : FileSystem)
    (vertexPath fragmentPath : String) (self : Shader) :
    (Shader.construct d fs vertexPath fragmentPath self).1.any isProgramCall = false
      ∧ (Shader.construct d fs vertexPath fragmentPath self).2 = self
      ∧ (Shader.construct sampleDriver sampleFiles "shader.vs" "shader.fs" ⟨0⟩).2.ID = 0 := by
  refine ⟨?_, rfl, rfl⟩
  rcases loadSources_cases fs vertexPath fragmentPath with ⟨v, f, -, -, h⟩ | ⟨-, h⟩
  · cases hc : d.compileStatus .VERTEX_SHADER (cstr v) <;>
      simp [Shader.construct, h, checkVertex, hc, isProgramCall]
  · cases hc : d.compileStatus .VERTEX_SHADER (cstr "") <;>
      simp [Shader.construct, h, checkVertex, hc, isProgramCall]

/-! ## The frame loop -/

theorem main_exit (env : MainEnv) (frames : List FrameInput)
    (hw : env.windowOk = true) (hg : env.gladOk = true) :
    (main env frames).exit = if frames.any flagAfter then some 0 else none := by
  simp only [main, hw, hg, Bool.not_true, Bool.false_eq_true, if_false, renderLoop_finished]
  split <;> rfl

theorem occursAfter_append_of_first (f l : Call → Bool) (a b : Trace)
    (h : a.any f = false) : occursAfter f l (a ++ b) = occursAfter f l b := by
  rw [occursAfter_append, occursAfter_eq_false_of_first f l a h, h]; rfl

theorem occursAfter_append_of_later (f l : Call → Bool) (a b : Trace)
    (h : b.any l = false) : occursAfter f l (a ++ b) = occursAfter f l a := by
  rw [occursAfter_append, occursAfter_eq_false_of_later f l b h, h]; simp

theorem countP_eq_zero_of_any (P : Call → Bool) (t : Trace) (h : t.any P = false) :
    t.countP P = 0 := by
  induction t with
  | nil => rfl
  | cons c t ih =>
    simp only [List.any_cons, Bool.or_eq_false_iff] at h
    simp [List.countP_cons, h.1, ih h.2]

theorem setup_any_eq_false (P : Call → Bool) (d : Driver)
    (hstart : startup.any P = false)
    (h1 : P .glfwMakeContextCurrent = false) (h2 : P .gladLoadGLLoader = false)
    (h3 : P .glfwSetFramebufferSizeCallback = false)
    (hbuild : (shaderBuild d).any P = false) (hgeo : (geometrySetup d).any P = false) :
    (setup d).any P = false := by
  simp only [setup, List.any_append, hstart, hbuild, hgeo, List.any_cons, h1, h2, h3,
    List.any_nil, Bool.or_false]

theorem setup_any_deletes (d : Driver) (k : ResKind) (n : Nat) (hk : k ≠ .shader) :
    (setup d).any (deletes (k, n)) = false := by
  apply setup_any_eq_false
  · rfl
  · rfl
  · rfl
  · rfl
  · cases hv : d.compileStatus .VERTEX_SHADER vertexShaderSource <;>
    cases hf : d.compileStatus .FRAGMENT_SHADER fragmentShaderSource <;>
    cases hl : d.linkStatus <;>
    simp [shaderBuild, checkVertex, checkFragment, checkLink, hv, hf, hl, deletes,
      Call.deleted, Ne.symm hk]
  · rfl

theorem renderLoop_any_deletes (d : Driver) (r : Res) (b : Bool) (frames : List FrameInput) :
    (renderLoop d b frames).1.any (deletes r) = false :=
  renderLoop_any d _ rfl (fun i => frame_any_eq_false _ _ rfl rfl rfl rfl rfl rfl rfl rfl rfl rfl i)
    b frames

theorem main_trace_finished (env : MainEnv) (frames : List FrameInput)
    (hw : env.windowOk = true) (hg : env.gladOk = true)
    (hexit : (main env frames).exit = some 0) :
    (main env frames).trace
      = (setup env.driver ++ (renderLoop env.driver false frames).1) ++ shutdown env.driver := by
  have hfin : (renderLoop env.driver false frames).2 = true := by
    rw [main_exit env frames hw hg] at hexit
    rw [renderLoop_finished]
    cases h : frames.any flagAfter
    · rw [h] at hexit; cases hexit
    · rfl
  rw [main_trace env frames hw hg, hfin]; rfl

theorem setup_any_isTerminate (d : Driver) : (setup d).any isTerminate = false := by
  apply setup_any_eq_false
  · rfl
  · rfl
  · rfl
  · rfl
  · cases hv : d.compileStatus .VERTEX_SHADER vertexShaderSource <;>
    cases hf : d.compileStatus .FRAGMENT_SHADER fragmentShaderSource <;>
    cases hl : d.linkStatus <;>
    simp [shaderBuild, checkVertex, checkFragment, checkLink, hv, hf, hl, isTerminate]
  · rfl

theorem renderLoop_any_isTerminate (d : Driver) (b : Bool) (frames : List FrameInput) :
    (renderLoop d b frames).1.any isTerminate = false :=
  renderLoop_any d _ rfl (fun i => frame_any_eq_false _ _ rfl rfl rfl rfl rfl rfl rfl rfl rfl rfl i)
    b frames

theorem shutdown_release (d : Driver) (pre : Trace) (k : ResKind) (n : Nat)
    (hdel : pre.any (deletes (k, n)) = false) (hterm : pre.any isTerminate = false) :
    deleteCount (k, n) (pre ++ shutdown d) = deleteCount (k, n) (shutdown d)
      ∧ occursAfter (deletes (k, n)) isDraw (pre ++ shutdown d) = false
      ∧ occursAfter (deletes (k, n)) isTerminate (pre ++ shutdown d)
          = occursAfter (deletes (k, n)) isTerminate (shutdown d)
      ∧ occursAfter isTerminate (deletes (k, n)) (pre ++ shutdown d) = false
      ∧ occursAfter (deletes (k, n)) (refers (k, n)) (pre ++ shutdown d)
          = occursAfter (deletes (k, n)) (refers (k, n)) (shutdown d) := by
  refine ⟨?_, ?_, ?_, ?_, ?_⟩
  · simp [deleteCount, List.countP_append, countP_eq_zero_of_any _ _ hdel]
  · rw [occursAfter_append_of_first _ _ _ _ hdel]
    exact occursAfter_eq_false_of_later _ _ _ rfl
  · rw [occursAfter_append_of_first _ _ _ _ hdel]
  · rw [occursAfter_append_of_first _ _ _ _ hterm]
    simp [shutdown, occursAfter, isTerminate]
  · rw [occursAfter_append_of_first _ _ _ _ hdel]

/-- C9: on every run of `main` that creates the GPU resources and returns 0,
with distinct buffer names, each of the vertex array, the vertex buffer, the
index buffer and the shader program is deleted exactly once; no draw call and
no call naming the object follows its deletion; `glfwTerminate` follows the
deletion and no deletion follows `glfwTerminate`. -/
theorem main_releases_once (env : MainEnv) (frames : List FrameInput)
    (hw : env.windowOk = true) (hg : env.gladOk = true)
    (hexit : (main env frames).exit = some 0)
    (hne : env.driver.VBO ≠ env.driver.EBO) :
    ∀ r ∈ [ (ResKind.vertexArray, env.driver.VAO), (ResKind.buffer, env.driver.VBO),
            (ResKind.buffer, env.driver.EBO), (ResKind.program, env.driver.shaderProgram) ],
      deleteCount r (main env frames).trace = 1
        ∧ occursAfter (deletes r) isDraw (main env frames).trace = false
        ∧ occursAfter (deletes r) isTerminate (main env frames).trace = true
        ∧ occursAfter isTerminate (deletes r) (main env frames).trace = false
        ∧ occursAfter (deletes r) (refers r) (main env frames).trace = false := by
  intro r hr
  rw [main_trace_finished env frames hw hg hexit]
  have hterm : (setup env.driver ++ (renderLoop env.driver false frames).1).any isTerminate
      = false := by
    rw [List.any_append, setup_any_isTerminate, renderLoop_any_isTerminate]; rfl
  have hdel : ∀ k n, k ≠ ResKind.shader →
      (setup env.driver ++ (renderLoop env.driver false frames).1).any (deletes (k, n))
        = false := by
    intro k n hk
    rw [List.any_append, setup_any_deletes _ _ _ hk, renderLoop_any_deletes]; rfl
  simp only [List.mem_cons, List.mem_singleton, List.not_mem_nil, or_false] at hr
  rcases hr with rfl | rfl | rfl | rfl
  · obtain ⟨h1, h2, h3, h4, h5⟩ := shutdown_release env.driver _ ResKind.vertexArray
      env.driver.VAO (hdel _ _ (by decide)) hterm
    rw [h1, h2, h3, h4, h5]
    simp [deleteCount, shutdown, occursAfter, deletes, refers, Call.deleted, Call.refs, isTerminate]
  · obtain ⟨h1, h2, h3, h4, h5⟩ := shutdown_release env.driver _ ResKind.buffer
      env.driver.VBO (hdel _ _ (by decide)) hterm
    rw [h1, h2, h3, h4, h5]
    simp [deleteCount, shutdown, occursAfter, deletes, refers, Call.deleted, Call.refs, isTerminate,
      hne, Ne.symm hne]
  · obtain ⟨h1, h2, h3, h4, h5⟩ := shutdown_release env.driver _ ResKind.buffer
      env.driver.EBO (hdel _ _ (by decide)) hterm
    rw [h1, h2, h3, h4, h5]
    simp [deleteCount, shutdown, occursAfter, deletes, refers, Call.deleted, Call.refs, isTerminate,
      hne, Ne.symm hne]
  · obtain ⟨h1, h2, h3, h4, h5⟩ := shutdown_release env.driver _ ResKind.program
      env.driver.shaderProgram (hdel _ _ (by decide)) hterm
    rw [h1, h2, h3, h4, h5]
    simp [deleteCount, shutdown, occursAfter, deletes, refers, Call.deleted, Call.refs, isTerminate]

/-- C9 (witness): one frame with the escape key down. -/
theorem main_releases_once_witness :
    (main sampleEnv [⟨true, false⟩]).exit = some 0
      ∧ sampleEnv.driver.VBO ≠ sampleEnv.driver.EBO
      ∧ ∀ r ∈ [ (ResKind.vertexArray, sampleEnv.driver.VAO), (ResKind.buffer, sampleEnv.driver.VBO),
                (ResKind.buffer, sampleEnv.driver.EBO),
                (ResKind.program, sampleEnv.driver.shaderProgram) ],
          deleteCount r (main sampleEnv [⟨true, false⟩]).trace = 1
            ∧ occursAfter (deletes r) isDraw (main sampleEnv [⟨true, false⟩]).trace = false
            ∧ occursAfter (deletes r) isTerminate (main sampleEnv [⟨true, false⟩]).trace = true
            ∧ occursAfter isTerminate (deletes r) (main sampleEnv [⟨true, false⟩]).trace = false
            ∧ occursAfter (deletes r) (refers r) (main sampleEnv [⟨true, false⟩]).trace = false :=
  ⟨rfl, by decide, main_releases_once sampleEnv [⟨true, false⟩] rfl rfl rfl (by decide)⟩

theorem main_trace_split (env : MainEnv) (frames : List FrameInput)
    (hw : env.windowOk = true) (hg : env.gladOk = true) :
    (main env frames).trace
      = setup env.driver ++ ((renderLoop env.driver false frames).1
          ++ (if frames.any flagAfter then shutdown env.driver else [])) := by
  rw [main_trace env frames hw hg, renderLoop_finished, List.append_assoc]

theorem afterSetup_any_eq_false (P : Call → Bool) (d : Driver) (frames : List FrameInput)
    (hP : P .glfwWindowShouldClose = false) (hf : ∀ i, (frame d i).any P = false)
    (hs : (shutdown d).any P = false) :
    ((renderLoop d false frames).1
        ++ (if frames.any flagAfter then shutdown d else [])).any P = false := by
  rw [List.any_append, renderLoop_any d P hP hf]
  split <;> simp [hs]

/-- C10: on every run of `main` that reaches the shader build, with distinct
stage handles and whatever the link status, each of the vertex and the fragment
stage handle is deleted exactly once, after `glLinkProgram`, never once the loop
has been entered, and no later call names it; the program handle is not deleted
before shutdown: it is deleted once when `main` leaves the loop, and nothing but
`glfwTerminate` follows its deletion. -/
theorem main_stage_handles_released (env : MainEnv) (frames : List FrameInput)
    (hw : env.windowOk = true) (hg : env.gladOk = true)
    (hne : env.driver.vertexShader ≠ env.driver.fragmentShader) :
    (∀ r ∈ [ (ResKind.shader, env.driver.vertexShader),
             (ResKind.shader, env.driver.fragmentShader) ],
        deleteCount r (main env frames).trace = 1
          ∧ occursAfter isLink (deletes r) (main env frames).trace = true
          ∧ occursAfter (deletes r) isLink (main env frames).trace = false
          ∧ occursAfter isLoopTest (deletes r) (main env frames).trace = false
          ∧ occursAfter (deletes r) (refers r) (main env frames).trace = false)
      ∧ deleteCount (ResKind.program, env.driver.shaderProgram) (main env frames).trace
          = (if frames.any flagAfter then 1 else 0)
      ∧ occursAfter (deletes (ResKind.program, env.driver.shaderProgram))
          (fun c => !isTerminate c) (main env frames).trace = false := by
  rw [main_trace_split env frames hw hg]
  have hrest_del : ∀ n, ((renderLoop env.driver false frames).1
      ++ (if frames.any flagAfter then shutdown env.driver else [])).any
        (deletes (ResKind.shader, n)) = false := fun n =>
    afterSetup_any_eq_false _ _ _ rfl
      (fun i => frame_any_eq_false _ _ rfl rfl rfl rfl rfl rfl rfl rfl rfl rfl i) rfl
  have hrest_ref : ∀ n, ((renderLoop env.driver false frames).1
      ++ (if frames.any flagAfter then shutdown env.driver else [])).any
        (refers (ResKind.shader, n)) = false := fun n =>
    afterSetup_any_eq_false _ _ _ rfl
      (fun i => frame_any_eq_false _ _ rfl rfl rfl rfl rfl rfl rfl rfl rfl rfl i) rfl
  have hrest_link : ((renderLoop env.driver false frames).1
      ++ (if frames.any flagAfter then shutdown env.driver else [])).any isLink = false :=
    afterSetup_any_eq_false _ _ _ rfl
      (fun i => frame_any_eq_false _ _ rfl rfl rfl rfl rfl rfl rfl rfl rfl rfl i) rfl
  have hsetup_test : (setup env.driver).any isLoopTest = false := by
    cases hv : env.driver.compileStatus .VERTEX_SHADER vertexShaderSource <;>
    cases hf : env.driver.compileStatus .FRAGMENT_SHADER fragmentShaderSource <;>
    cases hk : env.driver.linkStatus <;>
    simp [setup, startup, shaderBuild, checkVertex, checkFragment, checkLink, geometrySetup,
      hv, hf, hk, isLoopTest]
  refine ⟨?_, ?_, ?_⟩
  · intro r hr
    simp only [List.mem_cons, List.mem_singleton, List.not_mem_nil, or_false] at hr
    have key : ∀ n, (n = env.driver.vertexShader ∨ n = env.driver.fragmentShader) →
        deleteCount (ResKind.shader, n) (setup env.driver) = 1
          ∧ occursAfter isLink (deletes (ResKind.shader, n)) (setup env.driver) = true
          ∧ occursAfter (deletes (ResKind.shader, n)) isLink (setup env.driver) = false
          ∧ occursAfter (deletes (ResKind.shader, n)) (refers (ResKind.shader, n))
              (setup env.driver) = false := by
      intro n hn
      cases hv : env.driver.compileStatus .VERTEX_SHADER vertexShaderSource <;>
      cases hf : env.driver.compileStatus .FRAGMENT_SHADER fragmentShaderSource <;>
      cases hk : env.driver.linkStatus <;>
      rcases hn with rfl | rfl <;>
      simp [setup, startup, shaderBuild, checkVertex, checkFragment, checkLink, geometrySetup,
        hv, hf, hk, deleteCount, occursAfter, deletes, refers, Call.deleted, Call.refs, isLink,
        hne, Ne.symm hne]
    have hn : ∃ n, r = (ResKind.shader, n)
        ∧ (n = env.driver.vertexShader ∨ n = env.driver.fragmentShader) := by
      rcases hr with rfl | rfl
      · exact ⟨_, rfl, Or.inl rfl⟩
      · exact ⟨_, rfl, Or.inr rfl⟩
    obtain ⟨n, rfl, hn⟩ := hn
    obtain ⟨k1, k2, k3, k4⟩ := key n hn
    refine ⟨?_, ?_, ?_, ?_, ?_⟩
    · rw [deleteCount, List.countP_append, countP_eq_zero_of_any _ _ (hrest_del n)]
      exact k1
    · rw [occursAfter_append_of_later _ _ _ _ (hrest_del n)]; exact k2
    · rw [occursAfter_append_of_later _ _ _ _ hrest_link]; exact k3
    · rw [occursAfter_append_of_first _ _ _ _ hsetup_test]
      exact occursAfter_eq_false_of_later _ _ _ (hrest_del n)
    · rw [occursAfter_append_of_later _ _ _ _ (hrest_ref n)]; exact k4
  · rw [deleteCount, List.countP_append,
      countP_eq_zero_of_any _ _ (setup_any_deletes _ _ _ (by decide)),
      List.countP_append, countP_eq_zero_of_any _ _ (renderLoop_any_deletes _ _ _ _)]
    split <;> simp [shutdown, deletes, Call.deleted]
  · rw [occursAfter_append_of_first _ _ _ _ (setup_any_deletes _ _ _ (by decide)),
      occursAfter_append_of_first _ _ _ _ (renderLoop_any_deletes _ _ _ _)]
    split <;> simp [shutdown, occursAfter, deletes, Call.deleted, isTerminate]

/-- C10 (witness): the link succeeds and the loop
runs two frames. -/
theorem main_stage_handles_released_witness :
    sampleEnv.driver.linkStatus = true
      ∧ sampleEnv.driver.vertexShader ≠ sampleEnv.driver.fragmentShader
      ∧ (∀ r ∈ [ (ResKind.shader, sampleEnv.driver.vertexShader),
                 (ResKind.shader, sampleEnv.driver.fragmentShader) ],
          deleteCount r (main sampleEnv [⟨false, false⟩, ⟨false, true⟩]).trace = 1
            ∧ occursAfter isLink (deletes r)
                (main sampleEnv [⟨false, false⟩, ⟨false, true⟩]).trace = true
            ∧ occursAfter (deletes r) isLink
                (main sampleEnv [⟨false, false⟩, ⟨false, true⟩]).trace = false
            ∧ occursAfter isLoopTest (deletes r)
                (main sampleEnv [⟨false, false⟩, ⟨false, true⟩]).trace = false
            ∧ occursAfter (deletes r) (refers r)
                (main sampleEnv [⟨false, false⟩, ⟨false, true⟩]).trace = false)
      ∧ deleteCount (ResKind.program, sampleEnv.driver.shaderProgram)
            (main sampleEnv [⟨false, false⟩, ⟨false, true⟩]).trace
          = (if [(⟨false, false⟩ : FrameInput), ⟨false, true⟩].any flagAfter then 1 else 0)
      ∧ occursAfter (deletes (ResKind.program, sampleEnv.driver.shaderProgram))
          (fun c => !isTerminate c)
          (main sampleEnv [⟨false, false⟩, ⟨false, true⟩]).trace = false :=
  ⟨rfl, by decide,
   main_stage_handles_released sampleEnv [⟨false, false⟩, ⟨false, true⟩] rfl rfl (by decide)⟩

end OpenGLLearning
